import Mathlib

/-
Shallow embedding of the credential-lifecycle subsystem of the
mcp-concept2-logbook server (src/oauth.ts).  Times are milliseconds since
the epoch, modelled as Int (JavaScript numbers hold these exactly).
Network responses and the bytes drawn from the random source are explicit
parameters, so every function is pure and executable.
-/

/-- The persisted credential (interface TokenData, oauth.ts). -/
structure TokenData where
  access_token : String
  refresh_token : String
  expires_at : Int
  token_type : String
  scope : String
deriving DecidableEq, Repr

/-- Shape of the token endpoint's JSON success body (interface OAuthTokenResponse). -/
structure OAuthTokenResponse where
  access_token : String
  refresh_token : String
  expires_in : Int
  token_type : Option String
  scope : Option String
deriving DecidableEq, Repr

/-- An HTTP response from the token endpoint: response.ok carries the parsed
JSON body, otherwise the status and error text. -/
inductive HttpResponse where
  | ok (data : OAuthTokenResponse)
  | err (status : Nat) (body : String)
deriving DecidableEq, Repr

/-- The typed failures thrown by the subsystem (each corresponds to one
throw new Error(...) site in oauth.ts). -/
inductive AuthError where
  | notAuthenticated
  | noRefreshToken
  | refreshFailed
  | exchangeFailed (body : String)
  | configurationError
  | stateMismatch
  | providerError (error description : String)
  | missingCode
  | timedOut
  | serverFailed (message : String)
deriving DecidableEq, Repr

/-- JavaScript string truthiness of a nullable string: null and the empty
string are falsy. -/
def jsTruthy (s : Option String) : Bool :=
  match s with
  | none => false
  | some v => v ≠ ""

/-- JavaScript s || dflt on a nullable string: dflt when s is null or empty. -/
def jsOr (s : Option String) (dflt : String) : String :=
  match s with
  | none => dflt
  | some v => if v = "" then dflt else v

/-- JSON values as far as the token file needs them. -/
inductive JsonValue where
  | str (s : String)
  | num (n : Int)
  | obj (fields : List (String × JsonValue))

/-- First binding of a key in a JSON object's field list. -/
def lookupField : List (String × JsonValue) → String → Option JsonValue
  | [], _ => none
  | (k, v) :: rest, key => if k = key then some v else lookupField rest key

/-- Field access on a JSON value; non-objects have no fields. -/
def JsonValue.getField (j : JsonValue) (key : String) : Option JsonValue :=
  match j with
  | .obj fields => lookupField fields key
  | _ => none

/-- A JSON value read as a string. -/
def JsonValue.asStr : JsonValue → Option String
  | .str s => some s
  | _ => none

/-- A JSON value read as a number. -/
def JsonValue.asNum : JsonValue → Option Int
  | .num n => some n
  | _ => none

/-- JSON.stringify of a TokenData record (saveTokens writes exactly the
record's five fields). -/
def tokenDataToJson (t : TokenData) : JsonValue :=
  .obj [("access_token", .str t.access_token),
        ("refresh_token", .str t.refresh_token),
        ("expires_at", .num t.expires_at),
        ("token_type", .str t.token_type),
        ("scope", .str t.scope)]

/-- Reading a parsed JSON value back as a TokenData (loadTokens casts the
parsed value to TokenData; this decoder spells out the shape every later
field access assumes, and failure corresponds to loadTokens's catch branch
that leaves the token absent). -/
def jsonToTokenData (j : JsonValue) : Option TokenData :=
  match (j.getField "access_token").bind JsonValue.asStr,
        (j.getField "refresh_token").bind JsonValue.asStr,
        (j.getField "expires_at").bind JsonValue.asNum,
        (j.getField "token_type").bind JsonValue.asStr,
        (j.getField "scope").bind JsonValue.asStr with
  | some a, some r, some e, some ty, some sc => some ⟨a, r, e, ty, sc⟩
  | _, _, _, _, _ => none

/-- State of the TokenManager together with the token file it owns:
token and usingStaticToken are the class fields; file is the parsed
content of TOKEN_FILE, none when the file is absent (existsSync false). -/
structure ManagerState where
  token : Option TokenData
  usingStaticToken : Bool
  file : Option JsonValue

/-- loadTokens (oauth.ts 488-507): if the file exists, parse it and hold the
record; a parse failure leaves the token null; an absent file changes nothing. -/
def loadTokens (st : ManagerState) : ManagerState :=
  match st.file with
  | some j =>
    match jsonToTokenData j with
    | some t => { st with token := some t }
    | none => { st with token := none }
  | none => st

/-- saveTokens (oauth.ts 509-525): if a token is held, write its JSON to the
file; with no token held it writes nothing. -/
def saveTokens (st : ManagerState) : ManagerState :=
  match st.token with
  | some t => { st with file := some (tokenDataToJson t) }
  | none => st

/-- clearTokens (oauth.ts 527-538): null the in-memory token and delete the
file (deleting an absent file is a no-op). -/
def clearTokens (st : ManagerState) : ManagerState :=
  { st with token := none, file := none }

/-- hasValidToken (oauth.ts 540-542): this.token !== null. -/
def hasValidToken (st : ManagerState) : Bool :=
  st.token.isSome

/-- isExpired (oauth.ts 555-558): true with no token held, otherwise
Date.now() >= expires_at - bufferMs. -/
def isExpired (st : ManagerState) (bufferMs : Int) (now : Int) : Bool :=
  match st.token with
  | none => true
  | some t => decide (now ≥ t.expires_at - bufferMs)

/-- The TokenData built from a token-endpoint success body (oauth.ts 622-628
and 662-668): expires_at = Date.now() + expires_in*1000, token_type and
scope defaulted through JavaScript ||. -/
def responseToToken (d : OAuthTokenResponse) (now : Int) : TokenData :=
  { access_token := d.access_token,
    refresh_token := d.refresh_token,
    expires_at := now + d.expires_in * 1000,
    token_type := jsOr d.token_type "Bearer",
    scope := jsOr d.scope "" }

/-- The constructor (oauth.ts 463-482): a non-empty CONCEPT2_ACCESS_TOKEN
takes priority and yields a static token expiring one year out; otherwise
the manager loads the token file. -/
def mkTokenManager (staticAccessToken : String) (oauthScopes : String)
    (now : Int) (file : Option JsonValue) : ManagerState :=
  if staticAccessToken ≠ "" then
    { token := some { access_token := staticAccessToken,
                      refresh_token := "",
                      expires_at := now + 365 * 24 * 60 * 60 * 1000,
                      token_type := "Bearer",
                      scope := oauthScopes },
      usingStaticToken := true,
      file := file }
  else
    loadTokens { token := none, usingStaticToken := false, file := file }

/-- refreshToken (oauth.ts 590-631).  The Nat counts POSTs issued to the
token endpoint.  A missing token throws before any fetch; a non-ok response
clears the stored tokens and fails with RefreshFailed; a success installs a
whole new record and saves it. -/
def refreshToken (st : ManagerState) (resp : HttpResponse) (now : Int) :
    ManagerState × Except AuthError Unit × Nat :=
  match st.token with
  | none => (st, .error .noRefreshToken, 0)
  | some _ =>
    match resp with
    | .err _ _ => (clearTokens st, .error .refreshFailed, 1)
    | .ok d =>
      let st' := saveTokens { st with token := some (responseToToken d now) }
      (st', .ok (), 1)

/-- Outcome of one getAccessToken call: final manager state, the returned
token or thrown error, and how many token-endpoint calls were issued. -/
structure GetTokenOutcome where
  state : ManagerState
  result : Except AuthError String
  networkCalls : Nat

/-- getAccessToken (oauth.ts 564-588): throw when no token is held; return
the static token without refreshing; refresh first when expired (default
60000 ms buffer); then return this.token.access_token. -/
def getAccessToken (st : ManagerState) (resp : HttpResponse) (now : Int) :
    GetTokenOutcome :=
  match st.token with
  | none => ⟨st, .error .notAuthenticated, 0⟩
  | some t =>
    if st.usingStaticToken then ⟨st, .ok t.access_token, 0⟩
    else if isExpired st 60000 now then
      match refreshToken st resp now with
      | (st', .ok _, n) =>
        match st'.token with
        | some t' => ⟨st', .ok t'.access_token, n⟩
        | none => ⟨st', .error .notAuthenticated, n⟩
      | (st', .error e, n) => ⟨st', .error e, n⟩
    else ⟨st, .ok t.access_token, 0⟩

/-- generateState's hex rendering: b.toString(16). -/
def toHexString (b : Nat) : String :=
  String.mk (Nat.toDigits 16 b)

/-- JavaScript padStart(2, "0"). -/
def padStart2 (s : String) : String :=
  if 2 ≤ s.length then s else String.mk (List.replicate (2 - s.length) '0') ++ s

/-- One byte rendered as two hex characters (oauth.ts 727). -/
def byteToHex (b : Nat) : String :=
  padStart2 (toHexString b)

/-- generateState (oauth.ts 724-728) applied to the 32 random bytes drawn
from crypto.getRandomValues: each byte as 2-digit hex, joined. -/
def generateState (bytes : List Nat) : String :=
  String.join (bytes.map byteToHex)

/-- The single settlement of the callback promise: resolve carries the code
and received state, reject carries the thrown error. -/
inductive Settlement where
  | resolved (code receivedState : String)
  | rejected (e : AuthError)
deriving DecidableEq, Repr

/-- State of one runCallbackServer run: the promise cell, whether the
timeout is still pending (clearTimeout not yet called, timer not yet
fired), and whether server.close() has been called. -/
structure ServerState where
  settled : Option Settlement
  timerActive : Bool
  serverClosed : Bool
deriving DecidableEq, Repr

/-- Settling the promise.  A promise resolves or rejects at most once:
a resolve/reject on an already-settled promise is a no-op (ECMAScript
promise semantics, relied on by runCallbackServer's handlers). -/
def settle (st : ServerState) (s : Settlement) : ServerState :=
  match st.settled with
  | some _ => st
  | none => { st with settled := some s }

/-- One parsed callback request: pathname and the four query parameters the
handler reads (none = parameter absent). -/
structure CallbackRequest where
  pathname : String
  error : Option String
  error_description : Option String
  code : Option String
  state : Option String
deriving DecidableEq, Repr

/-- The request handler of runCallbackServer (oauth.ts 745-803), returning
the new server state and the HTTP status written.  A wrong path answers 404
and keeps listening; an error parameter answers 200 and rejects; a missing
code answers 400 and rejects; otherwise it answers 200 and resolves with
the code and with the state parameter defaulted to "". -/
def handleRequest (st : ServerState) (req : CallbackRequest) :
    ServerState × Nat :=
  if req.pathname ≠ "/callback" then (st, 404)
  else if jsTruthy req.error then
    (settle { st with timerActive := false, serverClosed := true }
       (.rejected (.providerError (jsOr req.error "")
          (jsOr req.error_description "Unknown error"))), 200)
  else if ¬ jsTruthy req.code then
    (settle { st with timerActive := false, serverClosed := true }
       (.rejected .missingCode), 400)
  else
    (settle { st with timerActive := false, serverClosed := true }
       (.resolved (jsOr req.code "") (jsOr req.state "")), 200)

/-- The timeout callback (oauth.ts 739-743): it can only run while the
timer is pending (clearTimeout cancels it); it closes the server and
rejects with the timeout error. -/
def fireTimer (st : ServerState) : ServerState :=
  if st.timerActive then
    settle { st with timerActive := false, serverClosed := true }
      (.rejected .timedOut)
  else st

/-- The events the listener's event loop can deliver: an incoming request
(including one already in flight when the server closes) or the timer. -/
inductive Ev where
  | request (req : CallbackRequest)
  | timerFires
deriving DecidableEq, Repr

/-- One event-loop step of the callback server. -/
def stepEv (st : ServerState) : Ev → ServerState
  | .request r => (handleRequest st r).1
  | .timerFires => fireTimer st

/-- A whole run of the callback server over a sequence of delivered events. -/
def runEvents (st : ServerState) (evs : List Ev) : ServerState :=
  evs.foldl stepEv st

/-- The server state at Listening entry: promise pending, timer started,
socket open. -/
def listeningState : ServerState :=
  ⟨none, true, false⟩

/-- How the awaited callback promise settled, as seen by
runAuthorizationFlow: a resolution gives code and receivedState, a
rejection propagates as the flow's failure. -/
inductive CallbackOutcome where
  | codeReceived (code receivedState : String)
  | providerError (error description : String)
  | missingCode
  | timedOut
  | serverFailed (message : String)
deriving DecidableEq, Repr

/-- exchangeCode (oauth.ts 633-671): one POST to the token endpoint; a
non-ok response throws ExchangeFailed, a success installs and saves a new
record. -/
def exchangeCode (st : ManagerState) (resp : HttpResponse) (now : Int) :
    ManagerState × Except AuthError Unit :=
  match resp with
  | .err _ body => (st, .error (.exchangeFailed body))
  | .ok d =>
    let st' := saveTokens { st with token := some (responseToToken d now) }
    (st', .ok ())

/-- Outcome of one runAuthorizationFlow call: final state, returned message
or thrown error, and how many exchange POSTs reached the token endpoint. -/
structure FlowOutcome where
  state : ManagerState
  result : Except AuthError String
  exchangeCalls : Nat

/-- runAuthorizationFlow (oauth.ts 684-717).  Static mode short-circuits to
a no-op success before the credential check; missing credentials throw
before any listener starts; otherwise the nonce is generateState stateBytes,
the callback outcome is awaited, a receivedState differing from the nonce
throws StateMismatch before any exchange, and a matching one exchanges the
code. -/
def runAuthorizationFlow (st : ManagerState) (clientId clientSecret : String)
    (stateBytes : List Nat) (cb : CallbackOutcome)
    (exchangeResp : HttpResponse) (now : Int) : FlowOutcome :=
  if st.usingStaticToken then
    ⟨st, .ok "Already authenticated using static access token (CONCEPT2_ACCESS_TOKEN).", 0⟩
  else if clientId = "" ∨ clientSecret = "" then
    ⟨st, .error .configurationError, 0⟩
  else
    match cb with
    | .codeReceived _code receivedState =>
      if receivedState ≠ generateState stateBytes then
        ⟨st, .error .stateMismatch, 0⟩
      else
        match exchangeCode st exchangeResp now with
        | (st', .ok _) => ⟨st', .ok "Authorization successful!", 1⟩
        | (st', .error e) => ⟨st', .error e, 1⟩
    | .providerError e d => ⟨st, .error (.providerError e d), 0⟩
    | .missingCode => ⟨st, .error .missingCode, 0⟩
    | .timedOut => ⟨st, .error .timedOut, 0⟩
    | .serverFailed m => ⟨st, .error (.serverFailed m), 0⟩

/-
Concurrency model for getAccessToken.  The event loop is single-threaded:
a caller runs atomically from entry up to the await on the refresh fetch,
and again from the fetch's response to its return.  Interleavings of
several callers therefore interleave these two atomic segments.
-/

/-- Where one concurrent getAccessToken caller stands: not yet run,
suspended at the refresh fetch's await, or returned/thrown. -/
inductive CallerPC where
  | ready
  | awaitingRefresh
  | finished (r : Except AuthError String)
deriving Repr

/-- The atomic prefix of getAccessToken, up to its first suspension point
(the fetch inside refreshToken); the Nat is the number of refresh POSTs
this segment issues. -/
def callerBegin (mgr : ManagerState) (now : Int) :
    ManagerState × CallerPC × Nat :=
  match mgr.token with
  | none => (mgr, .finished (.error .notAuthenticated), 0)
  | some t =>
    if mgr.usingStaticToken then (mgr, .finished (.ok t.access_token), 0)
    else if isExpired mgr 60000 now then
      (mgr, .awaitingRefresh, 1)
    else (mgr, .finished (.ok t.access_token), 0)

/-- The atomic suffix: refreshToken resumes with the fetch's response and
getAccessToken returns this.token.access_token. -/
def callerResume (mgr : ManagerState) (resp : HttpResponse) (now : Int) :
    ManagerState × CallerPC :=
  match resp with
  | .err _ _ => (clearTokens mgr, .finished (.error .refreshFailed))
  | .ok d =>
    let t := responseToToken d now
    let mgr' := saveTokens { mgr with token := some t }
    (mgr', .finished (.ok t.access_token))

/-- Shared state of two concurrent getAccessToken callers: the manager
they share, the total count of refresh POSTs issued, and each caller's
position. -/
structure ConcState where
  mgr : ManagerState
  networkCalls : Nat
  pc1 : CallerPC
  pc2 : CallerPC

/-- One scheduler step: run the next atomic segment of caller 1 (who =
true) or caller 2 (who = false); a finished caller is left alone. -/
def concStep (s : ConcState) (resp : HttpResponse) (now : Int)
    (who : Bool) : ConcState :=
  if who then
    match s.pc1 with
    | .ready =>
      let (m, pc, n) := callerBegin s.mgr now
      { s with mgr := m, pc1 := pc, networkCalls := s.networkCalls + n }
    | .awaitingRefresh =>
      let (m, pc) := callerResume s.mgr resp now
      { s with mgr := m, pc1 := pc }
    | .finished _ => s
  else
    match s.pc2 with
    | .ready =>
      let (m, pc, n) := callerBegin s.mgr now
      { s with mgr := m, pc2 := pc, networkCalls := s.networkCalls + n }
    | .awaitingRefresh =>
      let (m, pc) := callerResume s.mgr resp now
      { s with mgr := m, pc2 := pc }
    | .finished _ => s

/-- A whole interleaved run under a given schedule. -/
def runSched (s : ConcState) (resp : HttpResponse) (now : Int)
    (sched : List Bool) : ConcState :=
  sched.foldl (fun s w => concStep s resp now w) s

/-- An expired OAuth token, as held before the concurrent race. -/
def oldToken : TokenData :=
  ⟨"old", "old-refresh", 0, "Bearer", "user:read,results:read"⟩

/-- The refresh endpoint's (single, repeated) success body. -/
def refreshOk : HttpResponse :=
  .ok ⟨"new", "new-refresh", 1200, some "Bearer", some "user:read,results:read"⟩

/-- Two callers about to call getAccessToken against the expired token. -/
def raceStart : ConcState :=
  ⟨⟨some oldToken, false, none⟩, 0, .ready, .ready⟩

/-
Theorems
-/

/-- Helper: a left fold of string appends never shrinks below the initial
string's length. -/
theorem length_le_foldl_append (l : List String) (init : String) :
    init.length ≤ (l.foldl (fun a b => a ++ b) init).length := by
  induction l generalizing init with
  | nil => simp
  | cons hd tl ih =>
    calc init.length ≤ (init ++ hd).length := by
          simp [String.length_append]
      _ ≤ _ := ih (init ++ hd)

/-- Helper: every byte renders as at least two characters (padStart pads
short renderings up to two). -/
theorem two_le_byteToHex_length (b : Nat) : 2 ≤ (byteToHex b).length := by
  unfold byteToHex padStart2
  split
  · assumption
  · rename_i h
    simp only [String.length_append]
    have : (String.mk (List.replicate (2 - (toHexString b).length) '0')).length =
        2 - (toHexString b).length := by
      show (List.replicate (2 - (toHexString b).length) '0').length = _
      exact List.length_replicate _ _
    omega

/-- Helper: the nonce generated from at least one random byte is never the
empty string. -/
theorem generateState_ne_empty (b : Nat) (rest : List Nat) :
    generateState (b :: rest) ≠ "" := by
  intro hcontra
  have hlen : 2 ≤ (generateState (b :: rest)).length := by
    unfold generateState String.join
    simp only [List.map_cons, List.foldl_cons]
    calc 2 ≤ (byteToHex b).length := two_le_byteToHex_length b
      _ = ("" ++ byteToHex b).length := by simp [String.length_append]
      _ ≤ _ := length_le_foldl_append _ _
  rw [hcontra] at hlen
  simp [String.length] at hlen

/-- Helper: the callback promise keeps its settlement across any one later
handler or timer invocation. -/
theorem stepEv_preserves_settled (st : ServerState) (s : Settlement) (e : Ev)
    (h : st.settled = some s) : (stepEv st e).settled = some s := by
  cases e with
  | request r =>
    simp only [stepEv, handleRequest]
    split
    · exact h
    · split
      · simp [settle, h]
      · split
        · simp [settle, h]
        · simp [settle, h]
  | timerFires =>
    simp only [stepEv, fireTimer]
    split
    · simp [settle, h]
    · exact h

/-- Claim C2: the callback listener settles exactly once: once any terminal
event has settled the pending result, every later terminal event — a late
valid request after the timeout, or the timer after a request settled — is
ignored: the settlement is unchanged and no exception arises. -/
theorem callback_settles_exactly_once (st : ServerState) (s : Settlement)
    (evs : List Ev) (h : st.settled = some s) :
    (runEvents st evs).settled = some s := by
  induction evs generalizing st with
  | nil => exact h
  | cons e rest ih =>
    have hstep := stepEv_preserves_settled st s e h
    simpa [runEvents, List.foldl_cons] using ih (stepEv st e) hstep

/-- Witness for C2: the timeout fires at 100 ms, a valid request arrives
later; the run stays settled as the timeout rejection. -/
theorem callback_settles_exactly_once_witness :
    (runEvents (runEvents listeningState [Ev.timerFires])
        [Ev.request ⟨"/callback", none, none, some "latecode", some "latestate"⟩]).settled =
      some (.rejected .timedOut) :=
  callback_settles_exactly_once (runEvents listeningState [Ev.timerFires])
    (.rejected .timedOut)
    [Ev.request ⟨"/callback", none, none, some "latecode", some "latestate"⟩]
    (by rfl)

/-- Claim C3: a callback settling with a state value different from the
generated nonce makes runAuthorizationFlow fail with StateMismatch, with
zero calls to the token endpoint on that path. -/
theorem state_mismatch_aborts_before_exchange (st : ManagerState)
    (clientId clientSecret : String) (stateBytes : List Nat)
    (code receivedState : String) (resp : HttpResponse) (now : Int)
    (hstatic : st.usingStaticToken = false)
    (hid : clientId ≠ "") (hsecret : clientSecret ≠ "")
    (hmismatch : receivedState ≠ generateState stateBytes) :
    runAuthorizationFlow st clientId clientSecret stateBytes
        (.codeReceived code receivedState) resp now =
      ⟨st, .error .stateMismatch, 0⟩ := by
  simp [runAuthorizationFlow, hstatic, hid, hsecret, hmismatch]

/-- Witness for C3 at a concrete mismatching callback. -/
theorem state_mismatch_aborts_before_exchange_witness :
    runAuthorizationFlow ⟨none, false, none⟩ "id" "sec" (List.replicate 32 0)
        (.codeReceived "c" "evil") (.err 400 "") 0 =
      ⟨⟨none, false, none⟩, .error .stateMismatch, 0⟩ :=
  state_mismatch_aborts_before_exchange ⟨none, false, none⟩ "id" "sec"
    (List.replicate 32 0) "c" "evil" (.err 400 "") 0 rfl
    (by decide) (by decide) (by decide)

/-- Claim C4: a non-success refresh response makes getAccessToken fail with
RefreshFailed after clearing the held token entirely — in-memory record
absent and token file deleted — so hasValidToken on the resulting state is
false. -/
theorem refresh_failure_clears_tokens (t : TokenData) (f : Option JsonValue)
    (status : Nat) (body : String) (now : Int)
    (hexp : isExpired ⟨some t, false, f⟩ 60000 now = true) :
    getAccessToken ⟨some t, false, f⟩ (.err status body) now =
      ⟨⟨none, false, none⟩, .error .refreshFailed, 1⟩ ∧
    hasValidToken (getAccessToken ⟨some t, false, f⟩ (.err status body) now).state
      = false := by
  have h1 : getAccessToken ⟨some t, false, f⟩ (.err status body) now =
      ⟨⟨none, false, none⟩, .error .refreshFailed, 1⟩ := by
    simp [getAccessToken, hexp, refreshToken, clearTokens]
  exact ⟨h1, by rw [h1]; rfl⟩

/-- Witness for C4: an expired token and an HTTP 400 refresh response. -/
theorem refresh_failure_clears_tokens_witness :
    getAccessToken ⟨some ⟨"old", "r", 0, "Bearer", ""⟩, false, none⟩
        (.err 400 "bad request") 1000000 =
      ⟨⟨none, false, none⟩, .error .refreshFailed, 1⟩ ∧
    hasValidToken (getAccessToken ⟨some ⟨"old", "r", 0, "Bearer", ""⟩, false, none⟩
        (.err 400 "bad request") 1000000).state = false :=
  refresh_failure_clears_tokens ⟨"old", "r", 0, "Bearer", ""⟩ none 400
    "bad request" 1000000 (by decide)

/-- Claim C5: in static-token mode getAccessToken returns the configured
static token with zero token-endpoint calls, for every current time,
including times past the synthetic one-year expires_at. -/
theorem static_mode_getAccessToken (staticToken oauthScopes : String)
    (now later : Int) (f : Option JsonValue) (resp : HttpResponse)
    (h : staticToken ≠ "") :
    getAccessToken (mkTokenManager staticToken oauthScopes now f) resp later =
      ⟨mkTokenManager staticToken oauthScopes now f, .ok staticToken, 0⟩ := by
  simp [mkTokenManager, h, getAccessToken]

/-- Witness for C5: static token abc123 queried far past its synthetic
expiry, with the network answering only errors. -/
theorem static_mode_getAccessToken_witness :
    getAccessToken (mkTokenManager "abc123" "user:read,results:read" 0 none)
        (.err 500 "boom") 99999999999 =
      ⟨mkTokenManager "abc123" "user:read,results:read" 0 none, .ok "abc123", 0⟩ :=
  static_mode_getAccessToken "abc123" "user:read,results:read" 0 99999999999
    none (.err 500 "boom") (by decide)

/-- Claim C6: for every held token record, buffer, and current time,
isExpired is false exactly when expires_at exceeds now + buffer, and true
exactly when expires_at is at most now + buffer. -/
theorem isExpired_iff_expiry_bound (t : TokenData) (flag : Bool)
    (f : Option JsonValue) (buffer now : Int) :
    (isExpired ⟨some t, flag, f⟩ buffer now = false ↔ now + buffer < t.expires_at) ∧
    (isExpired ⟨some t, flag, f⟩ buffer now = true ↔ t.expires_at ≤ now + buffer) := by
  simp only [isExpired, decide_eq_false_iff_not, decide_eq_true_eq, not_le, ge_iff_le]
  omega

/-- Claim C7: saving a token record through the store and loading it back
yields a field-for-field identical record. -/
theorem save_load_round_trip (t : TokenData) (flag : Bool)
    (f : Option JsonValue) :
    (loadTokens ⟨none, flag, (saveTokens ⟨some t, flag, f⟩).file⟩).token = some t := by
  simp [saveTokens, loadTokens, jsonToTokenData, tokenDataToJson,
        JsonValue.getField, lookupField, JsonValue.asStr, JsonValue.asNum,
        Option.bind]

/-- Claim C8: hasValidToken is true exactly when a token record is held in
memory; it takes no clock or expiry input, so it stays true even for a held
token that isExpired reports as expired. -/
theorem hasValidToken_iff_held (st : ManagerState) :
    (hasValidToken st = st.token.isSome) ∧
    (∀ (t : TokenData) (buffer now : Int),
      st.token = some t → isExpired st buffer now = true →
        hasValidToken st = true) := by
  refine ⟨rfl, ?_⟩
  intro t buffer now h _
  simp [hasValidToken, h]

/-- Witness for C8: a token expired at any buffer still counts as valid. -/
theorem hasValidToken_iff_held_witness :
    hasValidToken ⟨some ⟨"a", "r", 0, "Bearer", ""⟩, false, none⟩ = true :=
  (hasValidToken_iff_held ⟨some ⟨"a", "r", 0, "Bearer", ""⟩, false, none⟩).2
    ⟨"a", "r", 0, "Bearer", ""⟩ 0 5 rfl (by decide)

/-- Claim C9: a callback request on the configured path carrying a code but
no state (and no error) settles as CodeReceived with the empty string as
state; the flow then fails with StateMismatch — not the missing-parameter
error — because the generated nonce is never empty. -/
theorem empty_state_param_gives_state_mismatch
    (stc : ServerState) (c : String)
    (mgr : ManagerState) (clientId clientSecret : String)
    (b : Nat) (rest : List Nat) (resp : HttpResponse) (now : Int)
    (hunsettled : stc.settled = none) (hc : c ≠ "")
    (hstatic : mgr.usingStaticToken = false)
    (hid : clientId ≠ "") (hsecret : clientSecret ≠ "") :
    (stepEv stc (.request ⟨"/callback", none, none, some c, none⟩)).settled =
        some (.resolved c "") ∧
    runAuthorizationFlow mgr clientId clientSecret (b :: rest)
        (.codeReceived c "") resp now = ⟨mgr, .error .stateMismatch, 0⟩ := by
  constructor
  · simp [stepEv, handleRequest, jsTruthy, jsOr, hc, settle, hunsettled]
  · have hne : ("" : String) ≠ generateState (b :: rest) :=
      fun h => generateState_ne_empty b rest h.symm
    simp [runAuthorizationFlow, hstatic, hid, hsecret, hne]

/-- Witness for C9: request with only a code parameter at a fresh listener;
a 32-byte nonce. -/
theorem empty_state_param_gives_state_mismatch_witness :
    (stepEv listeningState
        (.request ⟨"/callback", none, none, some "onlycode", none⟩)).settled =
        some (.resolved "onlycode" "") ∧
    runAuthorizationFlow ⟨none, false, none⟩ "id" "sec"
        (0 :: List.replicate 31 0) (.codeReceived "onlycode" "")
        (.err 400 "") 0 = ⟨⟨none, false, none⟩, .error .stateMismatch, 0⟩ :=
  empty_state_param_gives_state_mismatch listeningState "onlycode"
    ⟨none, false, none⟩ "id" "sec" 0 (List.replicate 31 0) (.err 400 "") 0
    rfl (by decide) rfl (by decide) (by decide)

/-- Claim C10: in static-token mode runAuthorizationFlow is a no-op success
even with both OAuth credentials unconfigured — the static-mode check runs
before the missing-credentials check. -/
theorem static_mode_flow_no_op (st : ManagerState) (stateBytes : List Nat)
    (cb : CallbackOutcome) (resp : HttpResponse) (now : Int)
    (h : st.usingStaticToken = true) :
    runAuthorizationFlow st "" "" stateBytes cb resp now =
      ⟨st, .ok "Already authenticated using static access token (CONCEPT2_ACCESS_TOKEN).", 0⟩ := by
  simp [runAuthorizationFlow, h]

/-- Witness for C10: a static-token manager with empty client id and
secret. -/
theorem static_mode_flow_no_op_witness :
    runAuthorizationFlow (mkTokenManager "abc123" "s" 0 none) "" "" []
        .timedOut (.err 400 "") 0 =
      ⟨mkTokenManager "abc123" "s" 0 none,
        .ok "Already authenticated using static access token (CONCEPT2_ACCESS_TOKEN).", 0⟩ :=
  static_mode_flow_no_op (mkTokenManager "abc123" "s" 0 none) [] .timedOut
    (.err 400 "") 0 (by rfl)

/-- Claim C1 fails on the code: getAccessToken has no single-flight guard,
so in the interleaving where both callers pass the expiry check before
either refresh response arrives, two refresh network calls are issued (the
claim requires exactly one); both callers still receive the new token. -/
theorem concurrent_refresh_is_not_single_flight :
    (runSched raceStart refreshOk 1000000 [true, false, true, false]).networkCalls = 2 ∧
    (runSched raceStart refreshOk 1000000 [true, false, true, false]).pc1 =
      .finished (.ok "new") ∧
    (runSched raceStart refreshOk 1000000 [true, false, true, false]).pc2 =
      .finished (.ok "new") :=
  ⟨rfl, rfl, rfl⟩
